import Mathlib

/-!
Verification development for the webrtc-to-rtp repository.

The embedding below models, from the Go sources:
  - the per-session signaling state machine of wshandles/webrtchandle.go
    (function WebRTCHandle and the callbacks it registers),
  - the read-error handling of the websocket read loop,
  - the JSON decoding of the inbound message envelope (struct webrtcMessage,
    decoded with encoding/json semantics),
  - the per-track RTP relay loop of setupOnTrack, including the RTP
    header codec at the byte level,
  - the lock discipline of the baseHandle send helpers and of the accesses
    to the state field,
  - the error-swallowing send helper of the base handle.

External collaborators (gorilla/websocket, pion/webrtc, pion/rtp, the UDP
stack) are modelled at their interface boundary by explicit oracles for
their success or failure, and by a byte-level RTP codec for the packet
path.
-/

namespace WebrtcToRtp

/-! ## Signaling state machine (webrtchandle.go, lines 26-38) -/

/-- The five session states, mirroring the Go constants notStarted,
readyToBegin, signalling, streaming, failed (webrtchandle.go lines 28-34). -/
inductive WState
  | notStarted
  | readyToBegin
  | signalling
  | streaming
  | failed
deriving DecidableEq, Repr

/-- The String method of webrtcState (webrtchandle.go lines 36-38). -/
def wStateString : WState → String
  | WState.notStarted => "NotStarted"
  | WState.readyToBegin => "ReadyToBegin"
  | WState.signalling => "Signalling"
  | WState.streaming => "Streaming"
  | WState.failed => "Failed"

/-- The decoded inbound message envelope, mirroring struct webrtcMessage
(webrtchandle.go lines 40-46).  The Go field SDPMLineIndex is a pointer to
uint16; it is modelled as an optional natural number. -/
structure WMessage where
  command : String
  sdp : String
  candidate : String
  sdpMid : String
  sdpMLineIndex : Option Nat
deriving DecidableEq, Repr

/-- Outbound traffic written to the websocket: a functional reply sent by
handle.send, or one of the side-channel notices sent by sendWarning and
sendError (part_002, baseHandle methods). -/
inductive Outbound
  | reply (m : WMessage)
  | warning (text : String)
  | error (text : String)
deriving DecidableEq, Repr

/-- The PeerEngine operations WebRTCHandle invokes on the pion peer
connection: initializePeerConnection (line 99), takeOffer (line 126),
takeCandidate (line 148). -/
inductive PeerOp
  | initPeerConnection
  | takeOffer (sdp : String)
  | takeCandidate (candidate : String)
deriving DecidableEq, Repr

/-- Oracle for the external PeerEngine (pion/webrtc): whether
initializePeerConnection fails (some error text), what takeOffer returns
(an error, or the local answer SDP produced by CreateAnswer and read back
from LocalDescription at line 136), and whether AddICECandidate fails. -/
structure Engine where
  initResult : Option String
  offerResult : String → Except String String
  candidateResult : String → Option String

/-- Result of processing one decoded message in the read loop: the state
after the iteration, the outbound messages sent, the PeerEngine operations
invoked, and whether the loop returns (the fatal error paths at lines 106
and 133 of webrtchandle.go). -/
structure StepResult where
  state : WState
  out : List Outbound
  ops : List PeerOp
  halt : Bool
deriving DecidableEq, Repr

/-- The wrong-state warning text, mirroring the format string at line 89 of
webrtchandle.go applied to the command, the current state and the required
state. -/
def wrongStateText (cmd : String) (actual required : WState) : String :=
  "Called \x27" ++ cmd ++ "\x27 command in wrong state: " ++ wStateString actual
    ++ ". State should be: " ++ wStateString required ++ ". Message ignored."

/-- The unknown-command warning text of the default switch branch
(webrtchandle.go line 155). -/
def unknownCommandText (cmd : String) : String :=
  "Received unknown command \x27" ++ cmd ++ "\x27. Ignored."

/-- The reply sent after a successful start (webrtchandle.go line 112). -/
def readyReply : WMessage := ⟨"ready", "", "", "", none⟩

/-- The reply sent after a successful offer (webrtchandle.go line 138). -/
def answerReply (sdp : String) : WMessage := ⟨"answer", sdp, "", "", none⟩

/-- One iteration of the command switch of WebRTCHandle (webrtchandle.go
lines 89-158), translated branch by branch: each of start, offer and
candidate first checks the state guard and on a mismatch sends exactly one
warning and leaves everything unchanged; otherwise the corresponding
PeerEngine operation runs, with the state updates and replies of the
source.  The default branch sends the unknown-command warning. -/
def handleCommand (eng : Engine) (st : WState) (m : WMessage) : StepResult :=
  if m.command = "start" then
    if st ≠ WState.notStarted then
      ⟨st, [Outbound.warning (wrongStateText m.command st WState.notStarted)], [], false⟩
    else
      match eng.initResult with
      | some e =>
          ⟨WState.failed, [Outbound.error ("Error initializing peer connection: " ++ e)],
            [PeerOp.initPeerConnection], true⟩
      | none =>
          ⟨WState.readyToBegin, [Outbound.reply readyReply], [PeerOp.initPeerConnection], false⟩
  else if m.command = "offer" then
    if st ≠ WState.readyToBegin then
      ⟨st, [Outbound.warning (wrongStateText m.command st WState.readyToBegin)], [], false⟩
    else
      match eng.offerResult m.sdp with
      | Except.error e =>
          ⟨WState.failed, [Outbound.error ("Error taking offer: " ++ e)],
            [PeerOp.takeOffer m.sdp], true⟩
      | Except.ok answerSdp =>
          ⟨WState.signalling, [Outbound.reply (answerReply answerSdp)],
            [PeerOp.takeOffer m.sdp], false⟩
  else if m.command = "candidate" then
    if st ≠ WState.signalling then
      ⟨st, [Outbound.warning (wrongStateText m.command st WState.signalling)], [], false⟩
    else
      match eng.candidateResult m.candidate with
      | some e =>
          ⟨st, [Outbound.warning ("Error taking candidate: " ++ e)],
            [PeerOp.takeCandidate m.candidate], false⟩
      | none =>
          ⟨st, [], [PeerOp.takeCandidate m.candidate], false⟩
  else
    ⟨st, [Outbound.warning (unknownCommandText m.command)], [], false⟩

/-- The required state of each guarded command: start requires NotStarted,
offer requires ReadyToBegin, candidate requires Signalling (webrtchandle.go
lines 92, 115, 141). -/
def requiredState (cmd : String) : Option WState :=
  if cmd = "start" then some WState.notStarted
  else if cmd = "offer" then some WState.readyToBegin
  else if cmd = "candidate" then some WState.signalling
  else none

/-- Running the read loop over a list of successfully decoded messages,
accumulating outbound messages and PeerEngine operations and stopping when
an iteration returns (fatal paths). -/
def runCmds (eng : Engine) (st : WState) : List WMessage → WState × List Outbound × List PeerOp
  | [] => (st, [], [])
  | m :: rest =>
      let r := handleCommand eng st m
      if r.halt then (r.state, r.out, r.ops)
      else
        let t := runCmds eng r.state rest
        (t.1, r.out ++ t.2.1, r.ops ++ t.2.2)

/-! ## Read-error handling of the websocket loop (webrtchandle.go 69-79) -/

/-- A failed ReadMessage call: either a websocket CloseError carrying a
closure code, or any other error value. -/
inductive ReadErr
  | closeError (code : Nat)
  | otherError (text : String)
deriving DecidableEq, Repr

/-- The closure codes passed to IsUnexpectedCloseError at lines 71-72:
CloseNormalClosure (1000), CloseGoingAway (1001), CloseAbnormalClosure
(1006). -/
def expectedCloseCodes : List Nat := [1000, 1001, 1006]

/-- gorilla/websocket IsUnexpectedCloseError: true exactly when the error
is a CloseError whose code is not in the expected list; false for every
non-CloseError value. -/
def isUnexpectedCloseError : ReadErr → Bool
  | ReadErr.closeError code => !(expectedCloseCodes.contains code)
  | ReadErr.otherError _ => false

/-- The read loop returns (session ends) exactly when the negated
IsUnexpectedCloseError test at lines 71-75 holds; otherwise it logs and
continues. -/
def readLoopTerminates (e : ReadErr) : Bool := !(isUnexpectedCloseError e)

/-- Whether the read error is a websocket CloseError at all. -/
def isCloseErr : ReadErr → Bool
  | ReadErr.closeError _ => true
  | ReadErr.otherError _ => false

/-- Whether the read error is a CloseError with one of the expected
closure codes. -/
def isExpectedClose : ReadErr → Bool
  | ReadErr.closeError code => expectedCloseCodes.contains code
  | ReadErr.otherError _ => false

/-! ## Session-level events, including the async connectivity callback
(webrtchandle.go lines 222-241) -/

/-- Every kind of event that can touch a session's state: a decoded
command processed by the read loop, a failed read, a failed decode, and
the four PeerConnectionState values handled by the
OnConnectionStateChange callback. -/
inductive SessionEvent
  | cmd (m : WMessage)
  | readFail (e : ReadErr)
  | decodeFail
  | connConnected
  | connFailed
  | connDisconnected
  | connClosed
deriving DecidableEq, Repr

/-- The effect of one event on the session state.  Commands go through
handleCommand; read and decode failures leave the state alone; the
connectivity callback (lines 222-241) sets Streaming on Connected and
Failed on Failed, with empty fallthrough branches for Closed and
Disconnected.  Note the Connected branch assigns Streaming without
inspecting the current state. -/
def sessionStep (eng : Engine) (st : WState) (ev : SessionEvent) : WState :=
  match ev with
  | SessionEvent.cmd m => (handleCommand eng st m).state
  | SessionEvent.readFail _ => st
  | SessionEvent.decodeFail => st
  | SessionEvent.connConnected => WState.streaming
  | SessionEvent.connFailed => WState.failed
  | SessionEvent.connDisconnected => st
  | SessionEvent.connClosed => st

/-- Position of each state in the forward order NotStarted, ReadyToBegin,
Signalling, Streaming, with Failed as the absorbing last rank. -/
def stateRank : WState → Nat
  | WState.notStarted => 0
  | WState.readyToBegin => 1
  | WState.signalling => 2
  | WState.streaming => 3
  | WState.failed => 4

/-- A concrete engine oracle on which every operation succeeds. -/
def trivialEngine : Engine :=
  ⟨none, fun _ => Except.ok "v=0", fun _ => none⟩

/-- A concrete engine oracle whose offer negotiation fails. -/
def offerFailEngine : Engine :=
  ⟨none, fun _ => Except.error "bad sdp", fun _ => none⟩

/-- The start command as decoded from a bare start message. -/
def startMsg : WMessage := ⟨"start", "", "", "", none⟩

/-- A candidate command as decoded from a bare candidate message. -/
def candidateMsg : WMessage := ⟨"candidate", "c1", "", "", none⟩

/-! ## Message codec (webrtchandle.go lines 82-87, struct at 40-46)

The inbound bytes are parsed by encoding/json into struct webrtcMessage.
The model works on the JSON document level: a syntactically invalid byte
string is the none input, a valid one is the parsed JSON value. -/

/-- A JSON document value. -/
inductive JVal
  | jnull
  | jbool (b : Bool)
  | jnum (n : Int)
  | jstr (s : String)
  | jarr (elems : List JVal)
  | jobj (fields : List (String × JVal))

/-- The zero value of struct webrtcMessage: empty strings and a nil
SDPMLineIndex pointer. -/
def emptyWMessage : WMessage := ⟨"", "", "", "", none⟩

/-- Decoding of one object member into the struct, with Go encoding/json
semantics: the five tagged keys accept a value of the matching type
(string for cmd, sdp, candidate, sdpMid; an integer in the uint16 range
for sdpMLineIndex), JSON null leaves a string field unchanged and sets the
pointer field to nil, a type mismatch is an unmarshal error, and every
unrecognized key is ignored.  The required option written in the cmd
struct tag (line 41) is not an option encoding/json knows, so it has no
effect on decoding. -/
def decodeField (m : WMessage) : String × JVal → Except String WMessage
  | ("cmd", JVal.jstr s) => Except.ok { m with command := s }
  | ("cmd", JVal.jnull) => Except.ok m
  | ("cmd", _) => Except.error "cannot unmarshal value into field Command of type string"
  | ("sdp", JVal.jstr s) => Except.ok { m with sdp := s }
  | ("sdp", JVal.jnull) => Except.ok m
  | ("sdp", _) => Except.error "cannot unmarshal value into field Sdp of type string"
  | ("candidate", JVal.jstr s) => Except.ok { m with candidate := s }
  | ("candidate", JVal.jnull) => Except.ok m
  | ("candidate", _) => Except.error "cannot unmarshal value into field Candidate of type string"
  | ("sdpMid", JVal.jstr s) => Except.ok { m with sdpMid := s }
  | ("sdpMid", JVal.jnull) => Except.ok m
  | ("sdpMid", _) => Except.error "cannot unmarshal value into field SDPMid of type string"
  | ("sdpMLineIndex", JVal.jnum n) =>
      if 0 ≤ n ∧ n ≤ 65535 then Except.ok { m with sdpMLineIndex := some n.toNat }
      else Except.error "cannot unmarshal value into field SDPMLineIndex of type uint16"
  | ("sdpMLineIndex", JVal.jnull) => Except.ok { m with sdpMLineIndex := none }
  | ("sdpMLineIndex", _) => Except.error "cannot unmarshal value into field SDPMLineIndex of type uint16"
  | (_, _) => Except.ok m

/-- json.Unmarshal of the message bytes into webrtcMessage: a syntax
error (none) fails, a non-object document fails with a type error, and an
object is folded member by member over the zero value, later duplicate
keys overriding earlier ones as in Go. -/
def decode : Option JVal → Except String WMessage
  | none => Except.error "invalid character in message"
  | some (JVal.jobj fields) => fields.foldlM decodeField emptyWMessage
  | some _ => Except.error "cannot unmarshal value into Go value of type webrtcMessage"

/-! ## Packet relay (webrtchandle.go setupOnTrack, lines 243-304)

The RTP codec below is the byte-level contract of pion/rtp used by the
relay loop: a packet is the 12 fixed header bytes (with version, padding
bit, extension bit and CSRC count packed in byte 0 and marker bit plus
payload type packed in byte 1), the CSRC bytes, an optional header
extension (profile, length in 32-bit words, body), and the remaining bytes
as payload (padding octets included).  Flag bits are carried as 0/1
naturals; the CSRC area and the extension body are carried as raw bytes
and re-emitted verbatim (canonical serialization, as for the
default-profile extension path of pion/rtp). -/

/-- The parsed RTP packet state, mirroring the rtp.Packet value the loop
reuses across iterations (rtpPacket at line 275). -/
structure RtpPacket where
  version : Nat
  paddingBit : Nat
  extensionBit : Nat
  markerBit : Nat
  payloadType : Nat
  sequenceNumber : Nat
  timestamp : Nat
  ssrc : Nat
  csrcBytes : List Nat
  extensionProfile : Nat
  extensionBytes : List Nat
  payload : List Nat
deriving DecidableEq, Repr

/-- Big-endian 16-bit value of two bytes. -/
def u16ofBytes (a b : Nat) : Nat := a * 256 + b

/-- Big-endian 32-bit value of four bytes. -/
def u32ofBytes (a b c d : Nat) : Nat := ((a * 256 + b) * 256 + c) * 256 + d

/-- Big-endian bytes of a 16-bit value. -/
def bytesOfU16 (n : Nat) : List Nat := [n / 256 % 256, n % 256]

/-- Big-endian bytes of a 32-bit value. -/
def bytesOfU32 (n : Nat) : List Nat :=
  [n / 16777216 % 256, n / 65536 % 256, n / 256 % 256, n % 256]

/-- rtp.Packet.Unmarshal: requires the 12 fixed header bytes, then the
CSRC area announced by the count in byte 0, then, when the extension bit
is set, a 4-byte extension header and the extension body announced by its
length field; anything shorter is a header-size error (none).  The
remaining bytes are the payload. -/
def parsePacket : List Nat → Option RtpPacket
  | b0 :: b1 :: s1 :: s2 :: t1 :: t2 :: t3 :: t4 :: w1 :: w2 :: w3 :: w4 :: rest =>
      if 4 * (b0 % 16) ≤ rest.length then
        if b0 / 16 % 2 = 1 then
          match rest.drop (4 * (b0 % 16)) with
          | e1 :: e2 :: l1 :: l2 :: body =>
              if 4 * u16ofBytes l1 l2 ≤ body.length then
                some { version := b0 / 64, paddingBit := b0 / 32 % 2, extensionBit := 1,
                       markerBit := b1 / 128, payloadType := b1 % 128,
                       sequenceNumber := u16ofBytes s1 s2,
                       timestamp := u32ofBytes t1 t2 t3 t4, ssrc := u32ofBytes w1 w2 w3 w4,
                       csrcBytes := rest.take (4 * (b0 % 16)),
                       extensionProfile := u16ofBytes e1 e2,
                       extensionBytes := body.take (4 * u16ofBytes l1 l2),
                       payload := body.drop (4 * u16ofBytes l1 l2) }
              else none
          | _ => none
        else
          some { version := b0 / 64, paddingBit := b0 / 32 % 2, extensionBit := 0,
                 markerBit := b1 / 128, payloadType := b1 % 128,
                 sequenceNumber := u16ofBytes s1 s2,
                 timestamp := u32ofBytes t1 t2 t3 t4, ssrc := u32ofBytes w1 w2 w3 w4,
                 csrcBytes := rest.take (4 * (b0 % 16)),
                 extensionProfile := 0, extensionBytes := [],
                 payload := rest.drop (4 * (b0 % 16)) }
      else none
  | _ => none

/-- rtp.Packet.MarshalTo: re-serializes the packet, packing the flag bits
and CSRC count into byte 0, the marker bit and payload type into byte 1,
then the 16- and 32-bit fields big-endian, the CSRC bytes, the extension
(when the bit is set) with its length in 32-bit words, and the payload. -/
def marshalPacket (p : RtpPacket) : List Nat :=
  (p.version * 64 + p.paddingBit * 32 + p.extensionBit * 16 + p.csrcBytes.length / 4)
    :: (p.markerBit * 128 + p.payloadType)
    :: (bytesOfU16 p.sequenceNumber ++ bytesOfU32 p.timestamp ++ bytesOfU32 p.ssrc
        ++ p.csrcBytes
        ++ (if p.extensionBit = 1 then
              bytesOfU16 p.extensionProfile
                ++ bytesOfU16 (p.extensionBytes.length / 4) ++ p.extensionBytes
            else [])
        ++ p.payload)

/-- The two media kinds handled by setupOnTrack (lines 251-264). -/
inductive TrackKind
  | audio
  | video
deriving DecidableEq, Repr

/-- The payload type constant per kind: 111 for audio (line 253), 96 for
video (line 259). -/
def relayPayloadType : TrackKind → Nat
  | TrackKind.audio => 111
  | TrackKind.video => 96

/-- The fixed local destination per kind (lines 254 and 260). -/
def relayDestination : TrackKind → String
  | TrackKind.audio => "127.0.0.1:4000"
  | TrackKind.video => "127.0.0.1:4002"

/-- What one track.Read delivers: a raw packet, or a read error (in which
case the loop works on an empty slice, since no bytes were read). -/
inductive RelayEvent
  | readOk (raw : List Nat)
  | readErr (msg : String)
deriving DecidableEq, Repr

/-- Outcome of the udpConn.Write call: success, the connection-refused
OpError recognized at line 296, or another write error. -/
inductive UdpWriteResult
  | ok
  | refused
  | failed (msg : String)
deriving DecidableEq, Repr

/-- Observable effects of one iteration of the relay loop. -/
structure RelayIterResult where
  pkt : RtpPacket
  written : List Nat
  logs : List String
  halts : Bool
deriving DecidableEq, Repr

/-- One iteration of the relay for-loop (webrtchandle.go lines 276-302),
translated statement by statement.  A read error is logged; an Unmarshal
error is logged, and since the body has no continue after it, the packet
variable keeps the value left by the previous iteration (exact for inputs
that fail the upfront header-length check of pion/rtp, which returns
before writing any field).  In every case the loop then overwrites the
payload type, re-marshals, and hands the resulting bytes to udpConn.Write;
the connection-refused write error is swallowed without a log, other write
errors are logged, and no path leaves the loop. -/
def relayIter (ptv : Nat) (prev : RtpPacket) (ev : RelayEvent) (wr : UdpWriteResult) :
    RelayIterResult :=
  let readPair : List Nat × List String :=
    match ev with
    | RelayEvent.readOk raw => (raw, [])
    | RelayEvent.readErr m => ([], ["track.Read returned error: " ++ m])
  let parsePair : RtpPacket × List String :=
    match parsePacket readPair.1 with
    | some p => (p, [])
    | none => (prev, ["rtpPacket.Unmarshal returned error"])
  let newPkt := { parsePair.1 with payloadType := ptv }
  let writeLogs : List String :=
    match wr with
    | UdpWriteResult.ok => []
    | UdpWriteResult.refused => []
    | UdpWriteResult.failed m => ["udpConn.Write returned error: " ++ m]
  { pkt := newPkt, written := marshalPacket newPkt,
    logs := readPair.2 ++ parsePair.2 ++ writeLogs, halts := false }

/-- Oracle for the relay setup of one kind: whether ResolveUDPAddr fails
and whether DialUDP fails. -/
structure UdpSetupOracle where
  resolveErr : Option String
  dialErr : Option String
deriving DecidableEq, Repr

/-- Outcome of the relay setup phase. -/
structure RelaySetupResult where
  clientError : Option String
  fatal : Bool
  logs : List String
deriving DecidableEq, Repr

/-- The setup phase of setupOnTrack for one kind (lines 251-272): a
ResolveUDPAddr error is only logged and execution falls through with a nil
remote address, on which DialUDP necessarily fails with a missing-address
error; a DialUDP error is logged, reported to the client with sendError,
and ends that relay instance (fatal).  On success the loop starts. -/
def relaySetup (o : UdpSetupOracle) : RelaySetupResult :=
  let resolveLogs : List String :=
    match o.resolveErr with
    | some e => ["net.ResolveUDPAddr returned error: " ++ e]
    | none => []
  let dialResult : Option String :=
    match o.resolveErr with
    | some _ => some "missing address"
    | none => o.dialErr
  match dialResult with
  | some e =>
      { clientError := some ("Error creating UDP connection: " ++ e), fatal := true,
        logs := resolveLogs ++ ["Error creating UDP connection: " ++ e] }
  | none => { clientError := none, fatal := false, logs := resolveLogs }

/-- The zero rtp.Packet value the relay loop starts from (line 275). -/
def zeroRtpPacket : RtpPacket := ⟨0, 0, 0, 0, 0, 0, 0, 0, [], 0, [], []⟩

/-- A concrete valid 14-byte RTP packet: version 2, no padding, no
extension, no CSRC, marker 0, payload type 96, sequence 1, timestamp 2,
SSRC 3, two payload bytes. -/
def sampleRaw : List Nat := [128, 96, 0, 1, 0, 0, 0, 2, 0, 0, 0, 3, 9, 9]

/-- The parse of sampleRaw. -/
def sampleParsed : RtpPacket := ⟨2, 0, 0, 0, 96, 1, 2, 3, [], 0, [], [9, 9]⟩

/-! ## Lock discipline (part_002 send, webrtchandle.go state accesses)

The sites below enumerate every access of handle.state in the source and
whether the source holds handle.mutex there: the three command guards at
lines 92, 115 and 141 read state without taking the mutex; the writes at
lines 101-103, 109-111, 122-124, 128-130 and in the connectivity callback
at lines 226-228 and 231-233 all hold it. -/

/-- Every access site of the session state field in webrtchandle.go. -/
inductive StateSite
  | startGuard
  | startFailWrite
  | startReadyWrite
  | offerGuard
  | offerSignallingWrite
  | offerFailWrite
  | candidateGuard
  | connConnectedWrite
  | connFailedWrite
deriving DecidableEq, Repr

/-- Whether the site writes state (true) or only reads it (false). -/
def siteIsWrite : StateSite → Bool
  | StateSite.startGuard => false
  | StateSite.offerGuard => false
  | StateSite.candidateGuard => false
  | _ => true

/-- Whether the source holds handle.mutex at the site. -/
def siteUnderMutex : StateSite → Bool
  | StateSite.startGuard => false
  | StateSite.offerGuard => false
  | StateSite.candidateGuard => false
  | _ => true

/-- Whether the site is a read used as a transition guard. -/
def siteIsGuardRead : StateSite → Bool
  | StateSite.startGuard => true
  | StateSite.offerGuard => true
  | StateSite.candidateGuard => true
  | _ => false

/-- The atomic steps of baseHandle.send (part_002 lines 24-29). -/
inductive SendStep
  | marshalMsg
  | lockMutex
  | writeChannel
  | unlockMutex
deriving DecidableEq, Repr

/-- The body of baseHandle.send in order: json.Marshal, mutex.Lock, the
deferred Unlock, and WriteMessage between them. -/
def sendSteps : List SendStep := [SendStep.marshalMsg, SendStep.lockMutex,
  SendStep.writeChannel, SendStep.unlockMutex]

/-- Checks that every channel write in the step list happens while the
mutex depth is positive. -/
def writesUnderMutex : List SendStep → Nat → Bool
  | [], _ => true
  | SendStep.lockMutex :: rest, d => writesUnderMutex rest (d + 1)
  | SendStep.unlockMutex :: rest, d => writesUnderMutex rest (d - 1)
  | SendStep.writeChannel :: rest, d => decide (0 < d) && writesUnderMutex rest d
  | SendStep.marshalMsg :: rest, d => writesUnderMutex rest d

/-! ## The send helper (part_002 lines 24-29) -/

/-- Oracle for one send call: the result of json.Marshal and the result of
wsConn.WriteMessage. -/
structure SendIO where
  marshalResult : Except String (List Nat)
  writeResult : Option String
deriving Repr

/-- What a send call makes observable to its caller and to the logs. -/
structure SendEffect where
  framePayload : List Nat
  logs : List String
  returnedError : Option String
deriving DecidableEq, Repr

/-- baseHandle.send, translated statement by statement: the json.Marshal
error is bound to the blank identifier and dropped (a failed marshal
leaves message nil, modelled as the empty byte list), WriteMessage is
always called on the message bytes and its returned error is discarded,
nothing is logged, and send returns no value. -/
def sendModel (io : SendIO) : SendEffect :=
  let message : List Nat :=
    match io.marshalResult with
    | Except.ok bs => bs
    | Except.error _ => []
  let _ := io.writeResult
  { framePayload := message, logs := [], returnedError := none }

end WebrtcToRtp

namespace WebrtcToRtp

/-! ## Theorems -/

/-- Claim C1: a start, offer or candidate command received in any state
other than its required one produces exactly one warning reply, leaves the
state unchanged, invokes no PeerEngine operation, and does not end the
loop; in particular two consecutive start commands on a working engine
create the peer handle exactly once, and a candidate command in a
pre-Signalling state never reaches the engine. -/
theorem c1_wrong_state_commands :
    (∀ (eng : Engine) (st : WState) (m : WMessage) (req : WState),
        requiredState m.command = some req → st ≠ req →
        handleCommand eng st m =
          ⟨st, [Outbound.warning (wrongStateText m.command st req)], [], false⟩)
  ∧ (∀ eng : Engine, eng.initResult = none →
        runCmds eng WState.notStarted [startMsg, startMsg] =
          (WState.readyToBegin,
           [Outbound.reply readyReply,
            Outbound.warning (wrongStateText "start" WState.readyToBegin WState.notStarted)],
           [PeerOp.initPeerConnection]))
  ∧ (∀ (eng : Engine) (st : WState) (m : WMessage),
        m.command = "candidate" → st ≠ WState.signalling →
        (handleCommand eng st m).ops = []) := by
  refine ⟨?_, ?_, ?_⟩
  · intro eng st m req hreq hne
    by_cases h1 : m.command = "start"
    · simp [requiredState, h1] at hreq
      subst hreq
      unfold handleCommand
      rw [if_pos h1, if_pos hne]
    · by_cases h2 : m.command = "offer"
      · simp [requiredState, h1, h2] at hreq
        subst hreq
        unfold handleCommand
        rw [if_neg h1, if_pos h2, if_pos hne]
      · by_cases h3 : m.command = "candidate"
        · simp [requiredState, h1, h2, h3] at hreq
          subst hreq
          unfold handleCommand
          rw [if_neg h1, if_neg h2, if_pos h3, if_pos hne]
        · simp [requiredState, h1, h2, h3] at hreq
  · intro eng h
    simp [runCmds, handleCommand, startMsg, h]
  · intro eng st m h1 h2
    have hs : m.command ≠ "start" := by rw [h1]; decide
    have ho : m.command ≠ "offer" := by rw [h1]; decide
    unfold handleCommand
    rw [if_neg hs, if_neg ho, if_pos h1, if_pos h2]

/-- Witness for claim C1 at concrete inputs: a second start in state
ReadyToBegin is a pure warning, the double-start run invokes the engine
once, and a candidate in NotStarted invokes nothing. -/
theorem c1_witness :
    handleCommand trivialEngine WState.readyToBegin startMsg =
      ⟨WState.readyToBegin,
       [Outbound.warning (wrongStateText startMsg.command WState.readyToBegin WState.notStarted)],
       [], false⟩
  ∧ runCmds trivialEngine WState.notStarted [startMsg, startMsg] =
      (WState.readyToBegin,
       [Outbound.reply readyReply,
        Outbound.warning (wrongStateText "start" WState.readyToBegin WState.notStarted)],
       [PeerOp.initPeerConnection])
  ∧ (handleCommand trivialEngine WState.notStarted candidateMsg).ops = [] :=
  ⟨c1_wrong_state_commands.1 trivialEngine WState.readyToBegin startMsg WState.notStarted rfl
      (by decide),
   c1_wrong_state_commands.2.1 trivialEngine rfl,
   c1_wrong_state_commands.2.2 trivialEngine WState.notStarted candidateMsg rfl (by decide)⟩

/-- Claim C8: any decoded message whose command is none of start, offer,
candidate is answered with exactly the unknown-command warning text, is
otherwise discarded, and changes nothing. -/
theorem c8_unknown_command (eng : Engine) (st : WState) (m : WMessage)
    (h1 : m.command ≠ "start") (h2 : m.command ≠ "offer") (h3 : m.command ≠ "candidate") :
    handleCommand eng st m =
      ⟨st, [Outbound.warning (unknownCommandText m.command)], [], false⟩ := by
  unfold handleCommand
  rw [if_neg h1, if_neg h2, if_neg h3]

/-- Witness for claim C8: the bogus command of the spec scenario yields
exactly the warning text of line 155. -/
theorem c8_witness :
    handleCommand trivialEngine WState.notStarted ⟨"bogus", "", "", "", none⟩ =
      ⟨WState.notStarted, [Outbound.warning (unknownCommandText "bogus")], [], false⟩ :=
  c8_unknown_command trivialEngine WState.notStarted ⟨"bogus", "", "", "", none⟩
    (by decide) (by decide) (by decide)

/-- Claim C6 counterexample: a read failure that is not a websocket close
error (for example an unexpected EOF on the connection) terminates the
loop, although it is not a channel closure with an expected code — so the
loop does not continue on every non-expected-closure read failure. -/
theorem c6_counterexample :
    readLoopTerminates (ReadErr.otherError "unexpected EOF") = true ∧
    isExpectedClose (ReadErr.otherError "unexpected EOF") = false := by
  exact ⟨rfl, rfl⟩

/-- Claim C6 amended: the read loop terminates exactly when the failure is
a close error with an expected code or is not a close error at all; it
logs and continues exactly on close errors with unexpected codes. -/
theorem c6_amended_termination (e : ReadErr) :
    readLoopTerminates e = (isExpectedClose e || !(isCloseErr e)) := by
  cases e with
  | closeError code =>
      simp [readLoopTerminates, isUnexpectedCloseError, isExpectedClose, isCloseErr]
  | otherError t =>
      simp [readLoopTerminates, isUnexpectedCloseError, isExpectedClose, isCloseErr]

/-- Claim C4 counterexample: a connectivity-connected event delivered
while the session state is Failed moves the state to Streaming, so the
Failed state is not terminal against asynchronous connectivity events. -/
theorem c4_counterexample :
    sessionStep trivialEngine WState.failed SessionEvent.connConnected = WState.streaming ∧
    WState.streaming ≠ WState.failed :=
  ⟨rfl, by decide⟩

/-- Claim C4 amended: every event either leaves the state unchanged or
moves it strictly forward in the order NotStarted, ReadyToBegin,
Signalling, Streaming, Failed — except that the connected connectivity
event overwrites even Failed with Streaming; and the read loop itself
never leaves Failed. -/
theorem c4_amended_transitions :
    (∀ (eng : Engine) (st : WState) (ev : SessionEvent),
        sessionStep eng st ev = st
      ∨ stateRank st < stateRank (sessionStep eng st ev)
      ∨ (st = WState.failed ∧ ev = SessionEvent.connConnected ∧
          sessionStep eng st ev = WState.streaming))
  ∧ (∀ (eng : Engine) (m : WMessage),
        (handleCommand eng WState.failed m).state = WState.failed) := by
  constructor
  · intro eng st ev
    cases ev with
    | cmd m =>
        simp only [sessionStep]
        by_cases h1 : m.command = "start"
        · unfold handleCommand
          rw [if_pos h1]
          by_cases hg : st ≠ WState.notStarted
          · rw [if_pos hg]; left; rfl
          · rw [if_neg hg]
            push_neg at hg
            subst hg
            cases eng.initResult with
            | none =>
                right; left
                exact (by decide : stateRank WState.notStarted < stateRank WState.readyToBegin)
            | some e =>
                right; left
                exact (by decide : stateRank WState.notStarted < stateRank WState.failed)
        · by_cases h2 : m.command = "offer"
          · unfold handleCommand
            rw [if_neg h1, if_pos h2]
            by_cases hg : st ≠ WState.readyToBegin
            · rw [if_pos hg]; left; rfl
            · rw [if_neg hg]
              push_neg at hg
              subst hg
              cases eng.offerResult m.sdp with
              | error e =>
                  right; left
                  exact (by decide : stateRank WState.readyToBegin < stateRank WState.failed)
              | ok a =>
                  right; left
                  exact (by decide : stateRank WState.readyToBegin < stateRank WState.signalling)
          · by_cases h3 : m.command = "candidate"
            · unfold handleCommand
              rw [if_neg h1, if_neg h2, if_pos h3]
              by_cases hg : st ≠ WState.signalling
              · rw [if_pos hg]; left; rfl
              · rw [if_neg hg]
                push_neg at hg
                subst hg
                cases eng.candidateResult m.candidate with
                | none => left; rfl
                | some e => left; rfl
            · unfold handleCommand
              rw [if_neg h1, if_neg h2, if_neg h3]
              left; rfl
    | readFail e => left; rfl
    | decodeFail => left; rfl
    | connConnected =>
        cases st with
        | notStarted =>
            right; left
            exact (by decide : stateRank WState.notStarted < stateRank WState.streaming)
        | readyToBegin =>
            right; left
            exact (by decide : stateRank WState.readyToBegin < stateRank WState.streaming)
        | signalling =>
            right; left
            exact (by decide : stateRank WState.signalling < stateRank WState.streaming)
        | streaming => left; rfl
        | failed => right; right; exact ⟨rfl, rfl, rfl⟩
    | connFailed =>
        cases st with
        | notStarted =>
            right; left
            exact (by decide : stateRank WState.notStarted < stateRank WState.failed)
        | readyToBegin =>
            right; left
            exact (by decide : stateRank WState.readyToBegin < stateRank WState.failed)
        | signalling =>
            right; left
            exact (by decide : stateRank WState.signalling < stateRank WState.failed)
        | streaming =>
            right; left
            exact (by decide : stateRank WState.streaming < stateRank WState.failed)
        | failed => left; rfl
    | connDisconnected => left; rfl
    | connClosed => left; rfl
  · intro eng m
    by_cases h1 : m.command = "start"
    · unfold handleCommand
      rw [if_pos h1, if_pos (by decide : WState.failed ≠ WState.notStarted)]
    · by_cases h2 : m.command = "offer"
      · unfold handleCommand
        rw [if_neg h1, if_pos h2, if_pos (by decide : WState.failed ≠ WState.readyToBegin)]
      · by_cases h3 : m.command = "candidate"
        · unfold handleCommand
          rw [if_neg h1, if_neg h2, if_pos h3,
            if_pos (by decide : WState.failed ≠ WState.signalling)]
        · unfold handleCommand
          rw [if_neg h1, if_neg h2, if_neg h3]

/-- Claim C9 counterexample: the state read of the start guard (line 92)
is used as a transition guard but is performed without holding the mutex,
so not every guard-relevant access of state happens under the lock. -/
theorem c9_counterexample :
    siteIsGuardRead StateSite.startGuard = true ∧
    siteUnderMutex StateSite.startGuard = false := ⟨rfl, rfl⟩

/-- Claim C9 amended: all Channel writes go through send, which holds the
mutex around WriteMessage, and every write of state is performed under the
mutex; the three guard reads of state in the command loop, however, are
performed without holding it. -/
theorem c9_amended_locking :
    writesUnderMutex sendSteps 0 = true
  ∧ (∀ s : StateSite, siteIsWrite s = true → siteUnderMutex s = true)
  ∧ (∀ s : StateSite, siteIsGuardRead s = true → siteUnderMutex s = false) := by
  refine ⟨rfl, ?_, ?_⟩
  · intro s h
    cases s <;> simp_all [siteIsWrite, siteUnderMutex]
  · intro s h
    cases s <;> simp_all [siteIsGuardRead, siteUnderMutex]

/-- Witness for the amended claim C9 at concrete sites: the failed-start
state write is under the mutex and the offer guard read is not. -/
theorem c9_witness :
    writesUnderMutex sendSteps 0 = true
  ∧ siteUnderMutex StateSite.startFailWrite = true
  ∧ siteUnderMutex StateSite.offerGuard = false :=
  ⟨c9_amended_locking.1,
   c9_amended_locking.2.1 StateSite.startFailWrite rfl,
   c9_amended_locking.2.2 StateSite.offerGuard rfl⟩

/-- Claim C10: send produces no log entry and surfaces no error to its
caller whatever the marshal and write oracles return, and its entire
observable effect is a function of the marshal result alone, so a write
failure is indistinguishable from a delivered message. -/
theorem c10_send_ignores_failures :
    (∀ io : SendIO, (sendModel io).logs = [] ∧ (sendModel io).returnedError = none)
  ∧ (∀ io io2 : SendIO, io.marshalResult = io2.marshalResult → sendModel io = sendModel io2) := by
  constructor
  · intro io
    exact ⟨rfl, rfl⟩
  · intro io io2 h
    simp [sendModel, h]

/-- Witness for claim C10: a send whose channel write fails with a broken
pipe has exactly the same observable effect as a successful one. -/
theorem c10_witness :
    (sendModel ⟨Except.ok [1], none⟩).logs = []
  ∧ (sendModel ⟨Except.ok [1], none⟩).returnedError = none
  ∧ sendModel ⟨Except.ok [1], none⟩ = sendModel ⟨Except.ok [1], some "broken pipe"⟩ :=
  ⟨(c10_send_ignores_failures.1 ⟨Except.ok [1], none⟩).1,
   (c10_send_ignores_failures.1 ⟨Except.ok [1], none⟩).2,
   c10_send_ignores_failures.2 ⟨Except.ok [1], none⟩ ⟨Except.ok [1], some "broken pipe"⟩ rfl⟩

/-- Claim C5 divergence witness: a structurally valid message without the
cmd key decodes successfully to the zero command (the required tag option
is not honoured by encoding/json), and the zero command is then processed
by the unknown-command branch of the switch instead of being rejected at
decode time. -/
theorem c5_missing_cmd_is_processed :
    decode (some (JVal.jobj [("sdp", JVal.jstr "x")])) = Except.ok ⟨"", "x", "", "", none⟩
  ∧ handleCommand trivialEngine WState.notStarted ⟨"", "x", "", "", none⟩ =
      ⟨WState.notStarted, [Outbound.warning (unknownCommandText "")], [], false⟩
  ∧ decode none = Except.error "invalid character in message" := by
  exact ⟨rfl, rfl, rfl⟩

/-- Claim C7: a relay instance is fatal exactly when its setup
(destination resolution or socket dial) fails, and then an error notice
for the client is produced; no per-packet event ever ends the loop; a
refused write adds nothing to the logs; any other write error adds exactly
one log line. -/
theorem c7_relay_failure_semantics :
    (∀ o : UdpSetupOracle,
        (relaySetup o).fatal = (o.resolveErr.isSome || o.dialErr.isSome)
      ∧ (relaySetup o).clientError.isSome = (relaySetup o).fatal)
  ∧ (∀ (ptv : Nat) (prev : RtpPacket) (ev : RelayEvent) (wr : UdpWriteResult),
        (relayIter ptv prev ev wr).halts = false)
  ∧ (∀ (ptv : Nat) (prev : RtpPacket) (ev : RelayEvent),
        (relayIter ptv prev ev UdpWriteResult.refused).logs
          = (relayIter ptv prev ev UdpWriteResult.ok).logs)
  ∧ (∀ (ptv : Nat) (prev : RtpPacket) (ev : RelayEvent) (d : String),
        (relayIter ptv prev ev (UdpWriteResult.failed d)).logs
          = (relayIter ptv prev ev UdpWriteResult.ok).logs
              ++ ["udpConn.Write returned error: " ++ d]) := by
  refine ⟨?_, ?_, ?_, ?_⟩
  · intro o
    obtain ⟨r, d⟩ := o
    cases r <;> cases d <;> simp [relaySetup]
  · intro ptv prev ev wr
    rfl
  · intro ptv prev ev
    rfl
  · intro ptv prev ev d
    simp [relayIter]

/-- Round trip of the 16-bit big-endian codec. -/
theorem bytesOfU16_u16 (a b : Nat) (ha : a < 256) (hb : b < 256) :
    bytesOfU16 (u16ofBytes a b) = [a, b] := by
  simp only [bytesOfU16, u16ofBytes, List.cons.injEq, and_true]
  omega

/-- Round trip of the 32-bit big-endian codec. -/
theorem bytesOfU32_u32 (a b c d : Nat) (ha : a < 256) (hb : b < 256) (hc : c < 256)
    (hd : d < 256) : bytesOfU32 (u32ofBytes a b c d) = [a, b, c, d] := by
  simp only [bytesOfU32, u32ofBytes, List.cons.injEq, and_true]
  omega

/-- Re-marshalling a parsed packet with a replaced payload type
reconstructs the input bytes exactly, except that byte 1 carries the new
payload type under the original marker bit. -/
theorem marshal_after_parse (raw : List Nat) (p : RtpPacket) (ptv : Nat)
    (hb : ∀ x ∈ raw, x < 256) (hp : parsePacket raw = some p) :
    marshalPacket { p with payloadType := ptv } =
      raw.set 1 (raw.getD 1 0 / 128 * 128 + ptv) := by
  rcases raw with _ | ⟨b0, _ | ⟨b1, _ | ⟨s1, _ | ⟨s2, _ | ⟨t1, _ | ⟨t2, _ | ⟨t3, _ | ⟨t4, _ | ⟨w1, _ | ⟨w2, _ | ⟨w3, _ | ⟨w4, rest⟩⟩⟩⟩⟩⟩⟩⟩⟩⟩⟩⟩ <;>
    try exact Option.noConfusion hp
  have hs1 : s1 < 256 := hb s1 (by simp)
  have hs2 : s2 < 256 := hb s2 (by simp)
  have ht1 : t1 < 256 := hb t1 (by simp)
  have ht2 : t2 < 256 := hb t2 (by simp)
  have ht3 : t3 < 256 := hb t3 (by simp)
  have ht4 : t4 < 256 := hb t4 (by simp)
  have hw1 : w1 < 256 := hb w1 (by simp)
  have hw2 : w2 < 256 := hb w2 (by simp)
  have hw3 : w3 < 256 := hb w3 (by simp)
  have hw4 : w4 < 256 := hb w4 (by simp)
  have hrest : ∀ x ∈ rest, x < 256 := fun x hx => hb x (by simp [hx])
  have hset : (b0 :: b1 :: s1 :: s2 :: t1 :: t2 :: t3 :: t4 :: w1 :: w2 :: w3 :: w4 :: rest).set 1
      ((b0 :: b1 :: s1 :: s2 :: t1 :: t2 :: t3 :: t4 :: w1 :: w2 :: w3 :: w4 :: rest).getD 1 0
        / 128 * 128 + ptv)
      = b0 :: (b1 / 128 * 128 + ptv)
          :: s1 :: s2 :: t1 :: t2 :: t3 :: t4 :: w1 :: w2 :: w3 :: w4 :: rest := rfl
  rw [hset]
  simp only [parsePacket] at hp
  split at hp
  case isFalse => exact Option.noConfusion hp
  case isTrue hcc =>
    have hTakeLen : (rest.take (4 * (b0 % 16))).length = 4 * (b0 % 16) := by
      rw [List.length_take]
      omega
    split at hp
    case isTrue hbit =>
      split at hp
      case h_2 heq => exact Option.noConfusion hp
      case h_1 e1 e2 l1 l2 body heq =>
        split at hp
        case isFalse => exact Option.noConfusion hp
        case isTrue hlen =>
          injection hp with hpp
          subst hpp
          have hdropmem : ∀ x ∈ rest.drop (4 * (b0 % 16)), x < 256 := fun x hx =>
            hrest x (List.drop_subset _ _ hx)
          have he1 : e1 < 256 := hdropmem e1 (by rw [heq]; simp)
          have he2 : e2 < 256 := hdropmem e2 (by rw [heq]; simp)
          have hl1 : l1 < 256 := hdropmem l1 (by rw [heq]; simp)
          have hl2 : l2 < 256 := hdropmem l2 (by rw [heq]; simp)
          have hBodyLen : (body.take (4 * u16ofBytes l1 l2)).length = 4 * u16ofBytes l1 l2 := by
            rw [List.length_take]
            omega
          simp only [marshalPacket, hTakeLen, hBodyLen]
          have h4q : 4 * u16ofBytes l1 l2 / 4 = u16ofBytes l1 l2 := by omega
          rw [h4q]
          simp only [if_true]
          rw [bytesOfU16_u16 s1 s2 hs1 hs2,
            bytesOfU32_u32 t1 t2 t3 t4 ht1 ht2 ht3 ht4,
            bytesOfU32_u32 w1 w2 w3 w4 hw1 hw2 hw3 hw4,
            bytesOfU16_u16 e1 e2 he1 he2, bytesOfU16_u16 l1 l2 hl1 hl2]
          simp only [List.append_assoc, List.cons_append, List.nil_append,
            List.take_append_drop]
          rw [← heq, List.take_append_drop]
          simp only [List.cons.injEq, eq_self_iff_true, and_true, true_and]
          omega
    case isFalse hbit =>
      injection hp with hpp
      subst hpp
      simp only [marshalPacket, hTakeLen]
      rw [if_neg (show ¬(0 : Nat) = 1 by omega)]
      rw [bytesOfU16_u16 s1 s2 hs1 hs2,
        bytesOfU32_u32 t1 t2 t3 t4 ht1 ht2 ht3 ht4,
        bytesOfU32_u32 w1 w2 w3 w4 hw1 hw2 hw3 hw4]
      simp only [List.append_assoc, List.cons_append, List.nil_append, List.append_nil,
        List.take_append_drop]
      simp only [List.cons.injEq, eq_self_iff_true, and_true, true_and]
      omega

/-- Claim C2: for every track kind and every inbound packet that parses as
an RTP packet, the bytes handed to the UDP write are the input bytes with
the payload-type field of byte 1 replaced by the kind's constant (111 for
audio, 96 for video) under the original marker bit: the written byte 1
carries the constant in its low seven bits, and every byte other than
byte 1 is unchanged. -/
theorem c2_relay_rewrites_only_payload_type (k : TrackKind) (prev : RtpPacket)
    (wr : UdpWriteResult) (raw : List Nat) (p : RtpPacket)
    (hb : ∀ x ∈ raw, x < 256) (hp : parsePacket raw = some p) :
    (relayIter (relayPayloadType k) prev (RelayEvent.readOk raw) wr).written
        = raw.set 1 (raw.getD 1 0 / 128 * 128 + relayPayloadType k)
  ∧ ((relayIter (relayPayloadType k) prev (RelayEvent.readOk raw) wr).written.getD 1 0) % 128
        = relayPayloadType k
  ∧ ∀ i, i ≠ 1 →
      ((relayIter (relayPayloadType k) prev (RelayEvent.readOk raw) wr).written.getD i 0)
        = raw.getD i 0 := by
  have hwr : (relayIter (relayPayloadType k) prev (RelayEvent.readOk raw) wr).written
      = marshalPacket { p with payloadType := relayPayloadType k } := by
    simp [relayIter, hp]
  have hmain := marshal_after_parse raw p (relayPayloadType k) hb hp
  rw [hwr, hmain]
  rcases raw with _ | ⟨b0, _ | ⟨b1, tail⟩⟩
  · exact Option.noConfusion hp
  · exact Option.noConfusion hp
  · have hptlt : relayPayloadType k < 128 := by cases k <;> decide
    have hone : (b0 :: b1 :: tail).set 1
        ((b0 :: b1 :: tail).getD 1 0 / 128 * 128 + relayPayloadType k)
        = b0 :: (b1 / 128 * 128 + relayPayloadType k) :: tail := rfl
    rw [hone]
    refine ⟨rfl, by simp; omega, ?_⟩
    intro i hi
    match i, hi with
    | 0, _ => rfl
    | Nat.succ (Nat.succ j), _ => rfl

/-- Witness for claim C2 on a concrete audio packet: a 14-byte packet with
original payload type 96 is rewritten to payload type 111 with every other
byte intact. -/
theorem c2_witness :
    (relayIter (relayPayloadType TrackKind.audio) zeroRtpPacket
        (RelayEvent.readOk sampleRaw) UdpWriteResult.ok).written
      = sampleRaw.set 1 (sampleRaw.getD 1 0 / 128 * 128 + relayPayloadType TrackKind.audio)
  ∧ ((relayIter (relayPayloadType TrackKind.audio) zeroRtpPacket
        (RelayEvent.readOk sampleRaw) UdpWriteResult.ok).written.getD 1 0) % 128
      = relayPayloadType TrackKind.audio
  ∧ ((relayIter (relayPayloadType TrackKind.audio) zeroRtpPacket
        (RelayEvent.readOk sampleRaw) UdpWriteResult.ok).written.getD 0 0)
      = sampleRaw.getD 0 0 :=
  ⟨(c2_relay_rewrites_only_payload_type TrackKind.audio zeroRtpPacket UdpWriteResult.ok
      sampleRaw sampleParsed (by decide) (by decide)).1,
   (c2_relay_rewrites_only_payload_type TrackKind.audio zeroRtpPacket UdpWriteResult.ok
      sampleRaw sampleParsed (by decide) (by decide)).2.1,
   (c2_relay_rewrites_only_payload_type TrackKind.audio zeroRtpPacket UdpWriteResult.ok
      sampleRaw sampleParsed (by decide) (by decide)).2.2 0 (by decide)⟩

/-- Claim C3 divergence witness: on the first iteration a one-byte packet
(0x80) fails header parsing; the loop logs the Unmarshal error, but
because the body has no continue it still re-marshals the (zero) packet
state with the audio payload type and hands a 12-byte packet to
udpConn.Write — one output packet instead of the zero packets the claim
requires.  The loop does keep running. -/
theorem c3_parse_failure_still_writes :
    (relayIter 111 zeroRtpPacket (RelayEvent.readOk [128]) UdpWriteResult.ok).logs
        = ["rtpPacket.Unmarshal returned error"]
  ∧ (relayIter 111 zeroRtpPacket (RelayEvent.readOk [128]) UdpWriteResult.ok).written
        = [0, 111, 0, 0, 0, 0, 0, 0, 0, 0, 0, 0]
  ∧ (relayIter 111 zeroRtpPacket (RelayEvent.readOk [128]) UdpWriteResult.ok).written.length ≠ 0
  ∧ (relayIter 111 zeroRtpPacket (RelayEvent.readOk [128]) UdpWriteResult.ok).halts = false := by
  refine ⟨rfl, rfl, by decide, rfl⟩

end WebrtcToRtp
